import Mathlib

/-!
Shallow embedding of `src/lib/src/session.c` (chiaki session orchestrator).

Pure data and classification logic is translated directly from the C source.
External collaborators (sockets, base64 codec, ctrl channel, Senkusha probe,
stream connection) are modelled as environment records giving the outcomes of
the external calls; the control flow of the session thread and of the
request-session client is reproduced from the source.

Definitions come first (data model, the request-session client, the session
thread), followed by the theorems about them.
-/

set_option maxHeartbeats 1000000

namespace Chiaki

/-- Targets, from the `ChiakiTarget` enum in the public header (values used by
`session.c`). Modelled from the spec: the header is not part of `src/`; the
spec lists exactly these six variants. -/
inductive ChiakiTarget where
  | PS4_UNKNOWN
  | PS4_8
  | PS4_9
  | PS4_10
  | PS5_UNKNOWN
  | PS5_1
  deriving DecidableEq, Repr, Fintype

/-- Error codes surfaced by the core (`ChiakiErrorCode`), restricted to the
constructors `session.c` mentions. -/
inductive ChiakiErrorCode where
  | SUCCESS
  | CANCELED
  | NETWORK
  | PARSE_ADDR
  | INVALID_DATA
  | VERSION_MISMATCH
  | DISCONNECTED
  | MEMORY
  | CONNECTION_REFUSED
  | UNKNOWN
  deriving DecidableEq, Repr

/-- Quit reasons (`ChiakiQuitReason`), exactly the closed enum of the header
as used by `session.c`. -/
inductive ChiakiQuitReason where
  | NONE
  | STOPPED
  | SESSION_REQUEST_UNKNOWN
  | SESSION_REQUEST_CONNECTION_REFUSED
  | SESSION_REQUEST_RP_IN_USE
  | SESSION_REQUEST_RP_CRASH
  | SESSION_REQUEST_RP_VERSION_MISMATCH
  | CTRL_UNKNOWN
  | CTRL_CONNECTION_REFUSED
  | CTRL_CONNECT_FAILED
  | STREAM_CONNECTION_UNKNOWN
  | STREAM_CONNECTION_REMOTE_DISCONNECTED
  deriving DecidableEq, Repr

open ChiakiTarget ChiakiErrorCode ChiakiQuitReason

/-- Modelled from the spec: `chiaki_target_is_unknown` lives in the public
header, not in `src/`; a target is unknown iff it is one of the two
`*_UNKNOWN` sentinels. -/
def chiaki_target_is_unknown : ChiakiTarget → Bool
  | PS4_UNKNOWN => true
  | PS5_UNKNOWN => true
  | _ => false

/-- Modelled from the spec: `chiaki_target_is_ps5` lives in the public header,
not in `src/`; a target is PS5 iff its console family is PS5. -/
def chiaki_target_is_ps5 : ChiakiTarget → Bool
  | PS5_UNKNOWN => true
  | PS5_1 => true
  | _ => false

/-- `chiaki_rp_version_string` (session.c:55-70): canonical RP-Version string
of a target, `none` for the unknown sentinels (C returns NULL). -/
def chiaki_rp_version_string : ChiakiTarget → Option String
  | PS4_8 => some "8.0"
  | PS4_9 => some "9.0"
  | PS4_10 => some "10.0"
  | PS5_1 => some "1.0"
  | _ => none

/-- `chiaki_rp_version_parse` (session.c:72-87). -/
def chiaki_rp_version_parse (rp_version_str : String) (is_ps5 : Bool) : ChiakiTarget :=
  if is_ps5 then
    if rp_version_str = "1.0" then PS5_1
    else PS5_UNKNOWN
  else
    if rp_version_str = "8.0" then PS4_8
    else if rp_version_str = "9.0" then PS4_9
    else if rp_version_str = "10.0" then PS4_10
    else PS4_UNKNOWN

/-- RP application reason constants from the header (not in `src/`).
Modelled from the spec: `RP_VERSION = 0x80`, `UNKNOWN = 0x100` are given by
the spec, `IN_USE = 0x87` by its scenario 4; the numeric values of
`REGIST_FAILED`, `INVALID_PSN_ID` and `CRASH` are not given, so arbitrary
values distinct from the known ones are chosen (only distinctness matters to
the classification logic in `session.c`). -/
def CHIAKI_RP_APPLICATION_REASON_RP_VERSION : Nat := 0x80

/-- See `CHIAKI_RP_APPLICATION_REASON_RP_VERSION`. -/
def CHIAKI_RP_APPLICATION_REASON_UNKNOWN : Nat := 0x100

/-- See `CHIAKI_RP_APPLICATION_REASON_RP_VERSION`. -/
def CHIAKI_RP_APPLICATION_REASON_IN_USE : Nat := 0x87

/-- See `CHIAKI_RP_APPLICATION_REASON_RP_VERSION`. -/
def CHIAKI_RP_APPLICATION_REASON_REGIST_FAILED : Nat := 0x81

/-- See `CHIAKI_RP_APPLICATION_REASON_RP_VERSION`. -/
def CHIAKI_RP_APPLICATION_REASON_INVALID_PSN_ID : Nat := 0x82

/-- See `CHIAKI_RP_APPLICATION_REASON_RP_VERSION`. -/
def CHIAKI_RP_APPLICATION_REASON_CRASH : Nat := 0x88

/-- `CHIAKI_RPCRYPT_KEY_SIZE` (header constant, value 16 per the spec). -/
def CHIAKI_RPCRYPT_KEY_SIZE : Nat := 16

/-- The fields of `ChiakiSession` that the embedded operations read or write.
`login_pin` is an `Option (List Nat)`: `none` models the NULL pointer, `some
bytes` a heap buffer holding `bytes` (possibly zero-length, as `malloc(0)` on
the reference platform returns a non-null pointer). `has_cb` models whether
`event_cb` is non-null. -/
structure SessionState where
  ps5 : Bool
  target : ChiakiTarget
  quit_reason : ChiakiQuitReason
  quit_reason_str : Option String
  nonce : List Nat
  login_pin_entered : Bool
  login_pin : Option (List Nat)
  login_pin_size : Nat
  has_cb : Bool
  ctrl_session_id_received : Bool
  mtu_in : Nat
  mtu_out : Nat
  rtt_us : Nat
  deriving DecidableEq, Repr

/-- `chiaki_session_init` (session.c:166-241), restricted to the state fields
modelled here: zero the struct, set `quit_reason = NONE`, pick the initial
target from the `ps5` flag, clear the PIN slot and the ctrl flags. OS
resources (mutex, cond, stop pipe, addrinfo resolution) are not modelled. -/
def chiaki_session_init (ps5 : Bool) (has_cb : Bool) : SessionState :=
  { ps5 := ps5
    target := if ps5 then PS5_1 else PS4_10
    quit_reason := NONE
    quit_reason_str := none
    nonce := []
    login_pin_entered := false
    login_pin := none
    login_pin_size := 0
    has_cb := has_cb
    ctrl_session_id_received := false
    mtu_in := 0
    mtu_out := 0
    rtt_us := 0 }

/-- `chiaki_session_set_login_pin` (session.c:298-314). `alloc_ok` is the
outcome of `malloc(pin_size)`: on failure the function returns
`CHIAKI_ERR_MEMORY` before touching the session; on success the old buffer
(if any) is freed and replaced by the copy. -/
def chiaki_session_set_login_pin (session : SessionState) (pin : List Nat)
    (alloc_ok : Bool) : SessionState × ChiakiErrorCode :=
  if !alloc_ok then
    (session, MEMORY)
  else
    ({ session with
        login_pin_entered := true
        login_pin := some pin
        login_pin_size := pin.length }, SUCCESS)

/-- The session thread's PIN-consumption step (session.c:441-445): forward the
PIN to ctrl, then clear the slot (`login_pin_entered = false`, free and NULL
the buffer, zero the size). -/
def session_consume_login_pin (session : SessionState) : SessionState :=
  { session with
      login_pin_entered := false
      login_pin := none
      login_pin_size := 0 }

/-- `chiaki_session_fini` (session.c:243-255): frees `login_pin` and
`quit_reason_str` and destroys OS resources. `free()` does not modify the
pointer fields themselves, so on the modelled fields `fini` is the
identity. -/
def chiaki_session_fini (session : SessionState) : SessionState :=
  session

/-- The PIN-slot invariant claimed by the spec:
`login_pin_entered ⇒ login_pin ≠ null ∧ login_pin_size > 0`, and conversely
`login_pin` is non-null only when `login_pin_entered`. -/
def pinInvariant (s : SessionState) : Prop :=
  (s.login_pin_entered = true → s.login_pin ≠ none ∧ s.login_pin_size > 0)
    ∧ (s.login_pin ≠ none → s.login_pin_entered = true)

/-- The nullness part of the PIN-slot invariant alone:
`login_pin ≠ null ↔ login_pin_entered`. -/
def pinNullInvariant (s : SessionState) : Prop :=
  s.login_pin ≠ none ↔ s.login_pin_entered = true

instance (s : SessionState) : Decidable (pinInvariant s) := by
  unfold pinInvariant; infer_instance

instance (s : SessionState) : Decidable (pinNullInvariant s) := by
  unfold pinNullInvariant; infer_instance

/-- A parsed HTTP response as produced by `chiaki_http_response_parse`
(external collaborator): status code and header key/value pairs. -/
structure ChiakiHttpResponse where
  code : Nat
  headers : List (String × String)
  deriving DecidableEq, Repr

/-- `SessionResponse` (session.c:545-550). `nonce`/`rp_version` are `none`
when the header was absent (NULL pointers after the `memset`). -/
structure SessionResponse where
  error_code : Nat
  nonce : Option String
  rp_version : Option String
  success : Bool
  deriving DecidableEq, Repr

/-- ASCII hex digit test, as `strtoul` accepts for base 16. -/
def isHexDigitChar (c : Char) : Bool :=
  ('0' ≤ c && c ≤ '9') || ('a' ≤ c && c ≤ 'f') || ('A' ≤ c && c ≤ 'F')

/-- Value of an ASCII hex digit. -/
def hexDigitVal (c : Char) : Nat :=
  if '0' ≤ c && c ≤ '9' then c.toNat - '0'.toNat
  else if 'a' ≤ c && c ≤ 'f' then c.toNat - 'a'.toNat + 10
  else c.toNat - 'A'.toNat + 10

/-- `isspace` characters skipped by `strtoul`. -/
def isSpaceChar (c : Char) : Bool :=
  c = ' ' || c = '\t' || c = '\n' || c = '\r' || c = '\x0b' || c = '\x0c'

/-- Drop leading `isspace` characters. -/
def dropSpaces : List Char → List Char
  | [] => []
  | c :: rest => if isSpaceChar c then dropSpaces rest else c :: rest

/-- `(uint32_t)strtoul(value, NULL, 0x10)` (session.c:563) on the reference
platform (64-bit `unsigned long`): skip whitespace, optional sign, optional
`0x`/`0X`, fold hex digits, clamp to `ULONG_MAX`, negate modulo 2^64 for a
leading minus, truncate to 32 bits. -/
def strtoul16_u32 (s : String) : Nat :=
  let l := dropSpaces s.toList
  let signAndRest : Bool × List Char :=
    match l with
    | '-' :: rest => (true, rest)
    | '+' :: rest => (false, rest)
    | l => (false, l)
  let afterSign := signAndRest.2
  let body : List Char :=
    match afterSign with
    | '0' :: 'x' :: rest => if (rest.headD ' ' |> isHexDigitChar) then rest else afterSign
    | '0' :: 'X' :: rest => if (rest.headD ' ' |> isHexDigitChar) then rest else afterSign
    | l => l
  let digits := body.takeWhile isHexDigitChar
  let v := digits.foldl (fun a c => a * 16 + hexDigitVal c) 0
  let v := min v (2 ^ 64 - 1)
  let v := if signAndRest.1 then (2 ^ 64 - v) % 2 ^ 64 else v
  v % 2 ^ 32

/-- ASCII-lowercase a string (`strcasecmp` equality up to case). -/
def asciiLowercase (s : String) : String :=
  String.mk (s.toList.map Char.toLower)

/-- `parse_session_response` (session.c:552-570): scan the headers, keeping
the last occurrence of each recognized key; `RP-Nonce` and
`RP-Application-Reason` match case-sensitively, `RP-Version`
case-insensitively; `success` iff status 200 and a nonce header was seen. -/
def parse_session_response (http : ChiakiHttpResponse) : SessionResponse :=
  let base := http.headers.foldl
    (fun (r : SessionResponse) kv =>
      if kv.1 = "RP-Nonce" then { r with nonce := some kv.2 }
      else if asciiLowercase kv.1 = asciiLowercase "RP-Version" then
        { r with rp_version := some kv.2 }
      else if kv.1 = "RP-Application-Reason" then
        { r with error_code := strtoul16_u32 kv.2 }
      else r)
    { error_code := 0, nonce := none, rp_version := none, success := false }
  { base with success := if http.code = 200 then base.nonce.isSome else false }

/-- The per-candidate outcome of one iteration of the address loop in
`session_thread_request_session` (session.c:579-652): the first four skip to
the next candidate without touching the quit reason; a refused or otherwise
failed connect records a tentative quit reason and continues; a canceled
connect sets `STOPPED` and gives up; a successful connect leaves the loop with
a valid socket. -/
inductive CandidateOutcome where
  | malloc_fail
  | bad_family
  | nameinfo_fail
  | socket_fail
  | connect_canceled
  | connect_refused
  | connect_fail
  | connect_ok
  deriving DecidableEq, Repr

/-- Result of the address loop: the quit reason accumulated so far, whether a
socket was connected, and whether the cancellable connect returned
`CANCELED`. -/
structure ConnectResult where
  quit_reason : ChiakiQuitReason
  connected : Bool
  canceled : Bool
  deriving DecidableEq, Repr

/-- The address loop of `session_thread_request_session`
(session.c:579-652). -/
def session_request_connect : List CandidateOutcome → ChiakiQuitReason → ConnectResult
  | [], qr => ⟨qr, false, false⟩
  | c :: rest, qr =>
    match c with
    | .malloc_fail => session_request_connect rest qr
    | .bad_family => session_request_connect rest qr
    | .nameinfo_fail => session_request_connect rest qr
    | .socket_fail => session_request_connect rest qr
    | .connect_canceled => ⟨STOPPED, false, true⟩
    | .connect_refused => session_request_connect rest SESSION_REQUEST_CONNECTION_REFUSED
    | .connect_fail => session_request_connect rest NONE
    | .connect_ok => ⟨qr, true, false⟩

/-- Outcome of the cancellable `chiaki_recv_http_header` plus
`chiaki_http_response_parse` pair (session.c:733-761). -/
inductive RecvOutcome where
  | canceled
  | recv_fail
  | parse_fail
  | response (resp : ChiakiHttpResponse)
  deriving DecidableEq, Repr

/-- Environment of one `session_thread_request_session` call: outcomes of the
external operations it performs. `base64_decode` models
`chiaki_base64_decode` into the 16-byte nonce buffer: `some bytes` on decode
success (`bytes` the decoded octets), `none` on failure. -/
structure RequestEnv where
  candidates : List CandidateOutcome
  send_ok : Bool
  recv : RecvOutcome
  base64_decode : String → Option (List Nat)

/-- Result of `session_thread_request_session`: updated session state, return
code, the value written through `target_out` (`none` when nothing was
written), and a ghost flag recording that a cancellable operation (connect or
header recv) returned `CANCELED`. -/
structure RequestResult where
  st : SessionState
  err : ChiakiErrorCode
  server_target : Option ChiakiTarget
  hit_canceled : Bool

/-- The reason-to-quit-reason switch of `session_thread_request_session`
(session.c:801-820); the return value starts as `CHIAKI_ERR_UNKNOWN` and only
the `RP_VERSION` case changes it. -/
def classify_app_reason (session : SessionState) (error_code : Nat) :
    SessionState × ChiakiErrorCode :=
  if error_code = CHIAKI_RP_APPLICATION_REASON_IN_USE then
    ({ session with quit_reason := SESSION_REQUEST_RP_IN_USE }, UNKNOWN)
  else if error_code = CHIAKI_RP_APPLICATION_REASON_CRASH then
    ({ session with quit_reason := SESSION_REQUEST_RP_CRASH }, UNKNOWN)
  else if error_code = CHIAKI_RP_APPLICATION_REASON_RP_VERSION then
    ({ session with quit_reason := SESSION_REQUEST_RP_VERSION_MISMATCH }, VERSION_MISMATCH)
  else
    ({ session with quit_reason := SESSION_REQUEST_UNKNOWN }, UNKNOWN)

/-- The version-renegotiation branch of `session_thread_request_session`
(session.c:780-800): parse the server version into `*target_out`; if unknown
and the server said `"5.0"`, overwrite with `PS4_9`; if unknown otherwise,
set quit reason `SESSION_REQUEST_RP_VERSION_MISMATCH` (leaving the unknown
sentinel in `*target_out`); always return `VERSION_MISMATCH`. -/
def renegotiate_version (session : SessionState) (server_version : String) :
    SessionState × Option ChiakiTarget :=
  let t := chiaki_rp_version_parse server_version session.ps5
  if !(chiaki_target_is_unknown t) then
    (session, some t)
  else if server_version = "5.0" then
    (session, some PS4_9)
  else
    ({ session with quit_reason := SESSION_REQUEST_RP_VERSION_MISMATCH }, some t)

/-- The outcome classification of `session_thread_request_session` after a
response was received and parsed (session.c:763-824). `session` is the state
after the connect loop, `rp_version_str` our own version string,
`base64_decode` the external codec. On success the decoded nonce is stored;
the `response.nonce = none` arm under `response.success` is unreachable
(success forces a nonce header) and mirrors a decode failure. -/
def request_outcome_classify (session : SessionState) (has_target_out : Bool)
    (rp_version_str : String) (resp : ChiakiHttpResponse)
    (base64_decode : String → Option (List Nat)) : RequestResult :=
  let response := parse_session_response resp
  if response.success then
    match response.nonce with
    | some nonce_str =>
      match base64_decode nonce_str with
      | some bytes =>
        if bytes.length = CHIAKI_RPCRYPT_KEY_SIZE then
          { st := { session with nonce := bytes }
            err := SUCCESS, server_target := none, hit_canceled := false }
        else
          { st := { session with quit_reason := SESSION_REQUEST_UNKNOWN }
            err := UNKNOWN, server_target := none, hit_canceled := false }
      | none =>
        { st := { session with quit_reason := SESSION_REQUEST_UNKNOWN }
          err := UNKNOWN, server_target := none, hit_canceled := false }
    | none =>
      { st := { session with quit_reason := SESSION_REQUEST_UNKNOWN }
        err := UNKNOWN, server_target := none, hit_canceled := false }
  else
    match response.rp_version with
    | some server_version =>
      if (response.error_code = CHIAKI_RP_APPLICATION_REASON_RP_VERSION
            ∨ response.error_code = CHIAKI_RP_APPLICATION_REASON_UNKNOWN)
          ∧ has_target_out = true ∧ server_version ≠ rp_version_str then
        let rn := renegotiate_version session server_version
        { st := rn.1, err := VERSION_MISMATCH
          server_target := rn.2, hit_canceled := false }
      else
        let cl := classify_app_reason session response.error_code
        { st := cl.1, err := cl.2, server_target := none, hit_canceled := false }
    | none =>
      let cl := classify_app_reason session response.error_code
      { st := cl.1, err := cl.2, server_target := none, hit_canceled := false }

/-- `session_thread_request_session` (session.c:576-825). `has_target_out`
models whether the caller passed a non-NULL `target_out`. `format_hex` and
`snprintf` cannot fail here on the reference platform (the hex buffer is
sized exactly for the 16-byte regist key and the request line fits the
512-byte buffer for the bounded numeric hostname), so their error paths are
not modelled. The construction of the request line itself (path selection,
regist-key hex) does not affect any modelled state field. -/
def session_thread_request_session (session : SessionState) (env : RequestEnv)
    (has_target_out : Bool) : RequestResult :=
  let conn := session_request_connect env.candidates session.quit_reason
  if !conn.connected then
    { st := { session with quit_reason :=
        if conn.quit_reason = NONE then SESSION_REQUEST_UNKNOWN else conn.quit_reason }
      err := NETWORK, server_target := none, hit_canceled := conn.canceled }
  else
    let session := { session with quit_reason := conn.quit_reason }
    match chiaki_rp_version_string session.target with
    | none =>
      { st := { session with quit_reason := SESSION_REQUEST_UNKNOWN }
        err := INVALID_DATA, server_target := none, hit_canceled := false }
    | some rp_version_str =>
      if !env.send_ok then
        { st := { session with quit_reason := SESSION_REQUEST_UNKNOWN }
          err := NETWORK, server_target := none, hit_canceled := false }
      else
        match env.recv with
        | .canceled =>
          { st := { session with quit_reason := STOPPED }
            err := NETWORK, server_target := none, hit_canceled := true }
        | .recv_fail =>
          { st := { session with quit_reason := SESSION_REQUEST_UNKNOWN }
            err := NETWORK, server_target := none, hit_canceled := false }
        | .parse_fail =>
          { st := { session with quit_reason := SESSION_REQUEST_UNKNOWN }
            err := NETWORK, server_target := none, hit_canceled := false }
        | .response resp =>
          request_outcome_classify session has_target_out rp_version_str resp
            (env.base64_decode)

/-- The two event kinds emitted by `session_thread_func`. -/
inductive ChiakiEvent where
  | quit (reason : ChiakiQuitReason) (reason_str : Option String)
  | login_pin_request (pin_incorrect : Bool)
  deriving DecidableEq, Repr

/-- `chiaki_session_send_event` (session.c:316-321): invoke the callback iff
one is registered; the returned list is the sequence of deliveries. -/
def chiaki_session_send_event (session : SessionState) (event : ChiakiEvent) :
    List ChiakiEvent :=
  if session.has_cb then [event] else []

/-- The shared flags as observed by the session thread when a wait on
`state_cond` returns (they are written by `stop()` and by the ctrl thread
under `state_mutex`). -/
structure CtrlObservation where
  should_stop : Bool
  ctrl_failed : Bool
  session_id_received : Bool
  deriving DecidableEq, Repr

/-- One iteration of the login-PIN loop (session.c:418-450), as seen by the
session thread: the flags observed when the infinite PIN wait returns, the
PIN bytes the embedder supplied (meaningful only when neither stop nor ctrl
failure ended the wait — the pin predicate guarantees `login_pin_entered`
then), and the flags observed after the subsequent wait for the session id.
The loop guard `ctrl_login_pin_requested` is encoded by the list structure:
a round exists exactly when the flag was observed true. -/
structure PinRound where
  stop_at_pin_wait : Bool
  ctrl_failed_at_pin_wait : Bool
  pin : List Nat
  stop_after_pin : Bool
  session_id_after_pin : Bool
  deriving DecidableEq, Repr

/-- The environment of one full run of `session_thread_func`: outcomes of all
external operations and the flag values observed at each wait point. -/
structure ThreadEnv where
  stop_at_start : Bool
  req1 : RequestEnv
  req2 : RequestEnv
  req3 : RequestEnv
  ctrl_start_err : ChiakiErrorCode
  after_ctrl_start : CtrlObservation
  pin_rounds : List PinRound
  senkusha_init_err : ChiakiErrorCode
  senkusha_run_err : ChiakiErrorCode
  senkusha_mtu_in : Nat
  senkusha_mtu_out : Nat
  senkusha_rtt_us : Nat
  random_err : ChiakiErrorCode
  ecdh_err : ChiakiErrorCode
  stream_err : ChiakiErrorCode
  remote_disconnect_reason : String

/-- Ghost record of one `session_thread_request_session` call made by the
thread: the `session->target` in effect for the call, whether a `target_out`
slot was passed, the returned error and whether a cancellable operation
inside returned `CANCELED`. -/
structure AttemptLog where
  target_used : ChiakiTarget
  has_target_out : Bool
  err : ChiakiErrorCode
  hit_canceled : Bool
  deriving DecidableEq, Repr

/-- Ghost execution log of one thread run. -/
structure ThreadLog where
  attempts : List AttemptLog
  ctrl_started : Bool
  senkusha_ran : Bool
  stream_ran : Bool
  deriving DecidableEq, Repr

/-- Result of a thread run: final state, events delivered to the embedder (in
order), and the ghost log. -/
structure ThreadResult where
  st : SessionState
  events : List ChiakiEvent
  log : ThreadLog
  deriving Repr

/-- Result of the request phase (session.c:371-393): `ok = false` models
`QUIT(quit)`, `ok = true` falling through to the ctrl phase. -/
structure PhaseResult where
  ok : Bool
  st : SessionState
  attempts : List AttemptLog
  deriving Repr

/-- The final `if(err != CHIAKI_ERR_SUCCESS) QUIT(quit)` (session.c:392-393). -/
def request_phase_final (st : SessionState) (err : ChiakiErrorCode)
    (attempts : List AttemptLog) : PhaseResult :=
  if err ≠ SUCCESS then ⟨false, st, attempts⟩ else ⟨true, st, attempts⟩

/-- The second retry block of the request phase (session.c:383-390): `err`
and `server_target` are the values of the respective C variables after the
first block. -/
def request_phase_second (env : ThreadEnv) (st : SessionState)
    (err : ChiakiErrorCode) (server_target : ChiakiTarget)
    (attempts : List AttemptLog) : PhaseResult :=
  if err = VERSION_MISMATCH ∧ chiaki_target_is_unknown server_target = false then
    let st2 := { st with target := server_target }
    let r3 := session_thread_request_session st2 env.req3 false
    request_phase_final r3.st r3.err
      (attempts ++ [⟨st2.target, false, r3.err, r3.hit_canceled⟩])
  else if err ≠ SUCCESS then ⟨false, st, attempts⟩
  else request_phase_final st err attempts

/-- The request phase of `session_thread_func` (session.c:371-393):
`server_target` starts as `PS4_UNKNOWN`; attempt 1 passes `&server_target`;
if it returned `VERSION_MISMATCH` with a non-unknown `server_target` the
target is updated and attempt 2 runs (again with `&server_target`), otherwise
any non-success quits; the same test on the resulting `err`/`server_target`
guards attempt 3, which passes `target_out = NULL`. -/
def request_phase (env : ThreadEnv) (st : SessionState) : PhaseResult :=
  let r1 := session_thread_request_session st env.req1 true
  let sv1 := r1.server_target.getD PS4_UNKNOWN
  let a1 : AttemptLog := ⟨st.target, true, r1.err, r1.hit_canceled⟩
  if r1.err = VERSION_MISMATCH ∧ chiaki_target_is_unknown sv1 = false then
    let st2 := { r1.st with target := sv1 }
    let r2 := session_thread_request_session st2 env.req2 true
    let sv2 := r2.server_target.getD sv1
    request_phase_second env r2.st r2.err sv2
      [a1, ⟨st2.target, true, r2.err, r2.hit_canceled⟩]
  else if r1.err ≠ SUCCESS then ⟨false, r1.st, [a1]⟩
  else request_phase_second env r1.st r1.err sv1 [a1]

/-- Exit mode of the PIN loop. -/
inductive PinLoopExit where
  | normal
  | stopped
  | ctrl_failed
  deriving DecidableEq, Repr

/-- The login-PIN loop (session.c:418-450). Each round: clear the request
flag, emit `LOGIN_PIN_REQUEST` (`pin_incorrect = false` only the first
time), wait for a PIN; a stop observed there quits with `STOPPED`, a ctrl
failure exits to the `ctrl_failed` label; otherwise the entered PIN is
consumed (slot freed and cleared) and the thread waits for the session id
again, observing stop and the id/request flags. -/
def session_pin_loop (st : SessionState) :
    List PinRound → Bool → PinLoopExit × SessionState × List ChiakiEvent
  | [], _ => (.normal, st, [])
  | r :: rest, pin_incorrect =>
    let evs := chiaki_session_send_event st (.login_pin_request pin_incorrect)
    if r.stop_at_pin_wait then
      (.stopped, { st with quit_reason := STOPPED }, evs)
    else if r.ctrl_failed_at_pin_wait then
      (.ctrl_failed, st, evs)
    else
      let st2 := session_consume_login_pin
        { st with
            login_pin_entered := true
            login_pin := some r.pin
            login_pin_size := r.pin.length }
      if r.stop_after_pin then
        (.stopped, { st2 with quit_reason := STOPPED }, evs)
      else
        let st3 := { st2 with ctrl_session_id_received := r.session_id_after_pin }
        let k := session_pin_loop st3 rest true
        (k.1, k.2.1, evs ++ k.2.2)

/-- The `ctrl_failed` label (session.c:455-459): set `CTRL_UNKNOWN` unless a
quit reason is already present. -/
def ctrl_failed_quit (st : SessionState) : SessionState :=
  if st.quit_reason = NONE then { st with quit_reason := CTRL_UNKNOWN } else st

/-- Classification of the stream-connection result (session.c:503-518).
`strdup` of the remote disconnect reason is modelled as always succeeding (a
failed `strdup` would leave `quit_reason_str` NULL and is tolerated per the
spec's error-handling policy). -/
def classify_stream_result (st : SessionState) (err : ChiakiErrorCode)
    (remote_disconnect_reason : String) : SessionState :=
  if err = DISCONNECTED then
    { st with
        quit_reason := STREAM_CONNECTION_REMOTE_DISCONNECTED
        quit_reason_str := some remote_disconnect_reason }
  else if err ≠ SUCCESS ∧ err ≠ CANCELED then
    { st with quit_reason := STREAM_CONNECTION_UNKNOWN }
  else
    { st with quit_reason := STOPPED }

/-- The single exit point of the thread (the `quit` label, session.c:529-536):
emit one `QUIT` event carrying the current quit reason and optional string. -/
def session_quit_finish (st : SessionState) (evs : List ChiakiEvent)
    (log : ThreadLog) : ThreadResult :=
  { st := st
    events := evs ++ chiaki_session_send_event st (.quit st.quit_reason st.quit_reason_str)
    log := log }

/-- The tail of the thread from the Senkusha stage on (session.c:462-521):
probe init failure quits; a `CANCELED` probe run quits (without touching the
quit reason); any other probe failure falls back to mtu 1454/1454 and rtt
1000; then handshake-key generation and ECDH init (either failure quits);
finally the stream connection runs and its result is classified. -/
def session_after_ctrl (env : ThreadEnv) (st : SessionState)
    (attempts : List AttemptLog) (evs : List ChiakiEvent) : ThreadResult :=
  if env.senkusha_init_err ≠ SUCCESS then
    session_quit_finish st evs ⟨attempts, true, false, false⟩
  else if env.senkusha_run_err = CANCELED then
    session_quit_finish st evs ⟨attempts, true, true, false⟩
  else
    let st2 :=
      if env.senkusha_run_err = SUCCESS then
        { st with
            mtu_in := env.senkusha_mtu_in
            mtu_out := env.senkusha_mtu_out
            rtt_us := env.senkusha_rtt_us }
      else
        { st with mtu_in := 1454, mtu_out := 1454, rtt_us := 1000 }
    if env.random_err ≠ SUCCESS then
      session_quit_finish st2 evs ⟨attempts, true, true, false⟩
    else if env.ecdh_err ≠ SUCCESS then
      session_quit_finish st2 evs ⟨attempts, true, true, false⟩
    else
      session_quit_finish
        (classify_stream_result st2 env.stream_err env.remote_disconnect_reason)
        evs ⟨attempts, true, true, true⟩

/-- `session_thread_func` (session.c:350-540). The initial `CHECK_STOP`, the
request phase, ctrl startup with its 5-second wait, the PIN loop, the
session-id gate, and the tail stages; every exit path reaches the single
`quit` label modelled by `session_quit_finish`. The 10 ms settling wait and
`chiaki_rpcrypt_init_auth` (session.c:397-400) touch no modelled state. -/
def session_thread_func (env : ThreadEnv) (st : SessionState) : ThreadResult :=
  if env.stop_at_start then
    session_quit_finish { st with quit_reason := STOPPED } [] ⟨[], false, false, false⟩
  else
    let pr := request_phase env st
    if pr.ok = false then
      session_quit_finish pr.st [] ⟨pr.attempts, false, false, false⟩
    else if env.ctrl_start_err ≠ SUCCESS then
      session_quit_finish pr.st [] ⟨pr.attempts, false, false, false⟩
    else if env.after_ctrl_start.should_stop then
      session_quit_finish { pr.st with quit_reason := STOPPED } []
        ⟨pr.attempts, true, false, false⟩
    else if env.after_ctrl_start.ctrl_failed then
      session_quit_finish (ctrl_failed_quit pr.st) [] ⟨pr.attempts, true, false, false⟩
    else
      let st1 := { pr.st with
        ctrl_session_id_received := env.after_ctrl_start.session_id_received }
      let lp := session_pin_loop st1 env.pin_rounds false
      match lp.1 with
      | .stopped => session_quit_finish lp.2.1 lp.2.2 ⟨pr.attempts, true, false, false⟩
      | .ctrl_failed =>
        session_quit_finish (ctrl_failed_quit lp.2.1) lp.2.2
          ⟨pr.attempts, true, false, false⟩
      | .normal =>
        if lp.2.1.ctrl_session_id_received = false then
          session_quit_finish (ctrl_failed_quit lp.2.1) lp.2.2
            ⟨pr.attempts, true, false, false⟩
        else
          session_after_ctrl env lp.2.1 pr.attempts lp.2.2

/-- Is an event a `QUIT` event? -/
def isQuitEvent : ChiakiEvent → Bool
  | .quit _ _ => true
  | .login_pin_request _ => false

/-- Number of `QUIT` events in a delivery sequence. -/
def quit_event_count (evs : List ChiakiEvent) : Nat :=
  (evs.filter isQuitEvent).length

/-- A request environment in which everything succeeds: one connectable
address, HTTP 200 with an `RP-Nonce` that decodes to 16 zero bytes. -/
def good_request_env : RequestEnv :=
  { candidates := [CandidateOutcome.connect_ok]
    send_ok := true
    recv := RecvOutcome.response
      { code := 200, headers := [("RP-Nonce", "AAAAAAAAAAAAAAAAAAAAAA==")] }
    base64_decode := fun v =>
      if v = "AAAAAAAAAAAAAAAAAAAAAA==" then some (List.replicate 16 0) else none }

/-- A thread environment for a clean run: request succeeds first try, ctrl
comes up and reports the session id, no PIN rounds, Senkusha, crypto and the
stream all succeed. -/
def base_thread_env : ThreadEnv :=
  { stop_at_start := false
    req1 := good_request_env
    req2 := good_request_env
    req3 := good_request_env
    ctrl_start_err := SUCCESS
    after_ctrl_start :=
      { should_stop := false, ctrl_failed := false, session_id_received := true }
    pin_rounds := []
    senkusha_init_err := SUCCESS
    senkusha_run_err := SUCCESS
    senkusha_mtu_in := 1454
    senkusha_mtu_out := 1454
    senkusha_rtt_us := 1000
    random_err := SUCCESS
    ecdh_err := SUCCESS
    stream_err := SUCCESS
    remote_disconnect_reason := "" }

/-- The first request attempt of a thread run (session.c:372), with
`target_out = &server_target`. -/
def attempt1 (env : ThreadEnv) (st : SessionState) : RequestResult :=
  session_thread_request_session st env.req1 true

/-- The value of the C variable `server_target` after attempt 1 (initialized
to `PS4_UNKNOWN` at session.c:371). -/
def server_target1 (env : ThreadEnv) (st : SessionState) : ChiakiTarget :=
  (attempt1 env st).server_target.getD PS4_UNKNOWN

/-- The second request attempt (session.c:378), after `target :=
server_target`, again with `target_out = &server_target`. -/
def attempt2 (env : ThreadEnv) (st : SessionState) : RequestResult :=
  session_thread_request_session
    { (attempt1 env st).st with target := server_target1 env st } env.req2 true

/-- The value of `server_target` after attempt 2. -/
def server_target2 (env : ThreadEnv) (st : SessionState) : ChiakiTarget :=
  (attempt2 env st).server_target.getD (server_target1 env st)

/-- The third request attempt (session.c:387), after `target :=
server_target`, with `target_out = NULL`. -/
def attempt3 (env : ThreadEnv) (st : SessionState) : RequestResult :=
  session_thread_request_session
    { (attempt2 env st).st with target := server_target2 env st } env.req3 false

/-! ## Theorems -/

/-- C9 counterexample input: a freshly initialized session and a zero-length
PIN. `chiaki_session_set_login_pin` copies the empty buffer and sets
`login_pin_entered = true` with `login_pin_size = 0`, violating the
`login_pin_size > 0` conjunct of the claimed invariant. -/
theorem setLoginPin_empty_breaks_invariant :
    ¬ pinInvariant
      (chiaki_session_set_login_pin (chiaki_session_init false true) [] true).1 := by
  decide

/-- C9 (amended): the PIN-slot invariant `entered ⇒ pin ≠ null ∧ size > 0`
(with its converse `pin ≠ null ⇒ entered`) holds after `init` and is preserved
by `set_login_pin` for every PIN of positive length, by the session thread's
PIN-consumption step, and by `fini`; for a zero-length PIN only the nullness
part `pin ≠ null ↔ entered` is preserved (the `size > 0` conjunct is broken,
see the counterexample). -/
theorem pin_invariant_preserved :
    (∀ ps5 has_cb, pinInvariant (chiaki_session_init ps5 has_cb))
    ∧ (∀ s pin alloc_ok, pinInvariant s → pin ≠ [] →
        pinInvariant (chiaki_session_set_login_pin s pin alloc_ok).1)
    ∧ (∀ s pin alloc_ok, pinNullInvariant s →
        pinNullInvariant (chiaki_session_set_login_pin s pin alloc_ok).1)
    ∧ (∀ s, pinInvariant s → pinInvariant (session_consume_login_pin s))
    ∧ (∀ s, pinInvariant s → pinInvariant (chiaki_session_fini s)) := by
  refine ⟨?_, ?_, ?_, ?_, ?_⟩
  · intro ps5 has_cb
    constructor
    · intro h; simp [chiaki_session_init] at h
    · intro h; simp [chiaki_session_init] at h
  · intro s pin alloc_ok hinv hpin
    cases alloc_ok with
    | false => simpa [chiaki_session_set_login_pin] using hinv
    | true =>
      constructor
      · intro _
        exact ⟨by simp [chiaki_session_set_login_pin],
          by simpa [chiaki_session_set_login_pin, List.length_pos] using hpin⟩
      · intro _; rfl
  · intro s pin alloc_ok hinv
    cases alloc_ok with
    | false => simpa [chiaki_session_set_login_pin] using hinv
    | true =>
      unfold pinNullInvariant
      simp [chiaki_session_set_login_pin]
  · intro s _
    constructor
    · intro h; simp [session_consume_login_pin] at h
    · intro h; simp [session_consume_login_pin] at h
  · intro s hinv
    exact hinv

/-- Witness for C9 (amended): preservation at a concrete state and PIN. -/
theorem pin_invariant_preserved_witness :
    pinInvariant (chiaki_session_init false true)
    ∧ pinInvariant
        (chiaki_session_set_login_pin (chiaki_session_init false true)
          [1, 2, 3, 4] true).1 :=
  ⟨pin_invariant_preserved.1 false true,
    pin_invariant_preserved.2.1 (chiaki_session_init false true) [1, 2, 3, 4] true
      (pin_invariant_preserved.1 false true) (by decide)⟩

/-- C10: `chiaki_session_set_login_pin` replaces any pending PIN — on
allocation success the slot holds a copy of the new bytes with the new size
and `login_pin_entered = true` (so after two calls the latest PIN wins), and
on allocation failure it returns `CHIAKI_ERR_MEMORY` with the session left
unchanged. -/
theorem setLoginPin_latest_wins :
    (∀ s pin, chiaki_session_set_login_pin s pin true
        = ({ s with
              login_pin_entered := true
              login_pin := some pin
              login_pin_size := pin.length }, SUCCESS))
    ∧ (∀ s pin1 pin2,
        ((chiaki_session_set_login_pin
            (chiaki_session_set_login_pin s pin1 true).1 pin2 true).1.login_pin
              = some pin2
          ∧ (chiaki_session_set_login_pin
              (chiaki_session_set_login_pin s pin1 true).1 pin2 true).1.login_pin_size
              = pin2.length
          ∧ (chiaki_session_set_login_pin
              (chiaki_session_set_login_pin s pin1 true).1 pin2 true).1.login_pin_entered
              = true))
    ∧ (∀ s pin, chiaki_session_set_login_pin s pin false = (s, MEMORY)) := by
  refine ⟨?_, ?_, ?_⟩
  · intro s pin
    simp [chiaki_session_set_login_pin]
  · intro s pin1 pin2
    simp [chiaki_session_set_login_pin]
  · intro s pin
    simp [chiaki_session_set_login_pin]

/-- C5: `chiaki_rp_version_parse` inverts the canonical version-string
mapping: for every target `t` with canonical string `v` (only non-unknown
targets have one), `chiaki_rp_version_parse v (is_ps5 t) = t`; and for every
flag and every string that is not the canonical version of some target with
that flag, parsing yields the flag's `*_UNKNOWN` sentinel. -/
theorem rp_version_parse_inverse :
    (∀ t v, chiaki_rp_version_string t = some v →
        chiaki_rp_version_parse v (chiaki_target_is_ps5 t) = t)
    ∧ (∀ (is_ps5 : Bool) (s : String),
        (∀ t, chiaki_target_is_ps5 t = is_ps5 → chiaki_rp_version_string t ≠ some s) →
        chiaki_rp_version_parse s is_ps5
          = (if is_ps5 then PS5_UNKNOWN else PS4_UNKNOWN)) := by
  constructor
  · intro t v h
    cases t <;> simp only [chiaki_rp_version_string, Option.some.injEq,
        reduceCtorEq] at h <;>
      first
        | exact absurd h (by simp)
        | (subst h; decide)
  · intro is_ps5 s h
    cases is_ps5 with
    | true =>
      have h1 := h PS5_1 rfl
      simp only [chiaki_rp_version_string, ne_eq, Option.some.injEq] at h1
      have h1' : ¬(s = "1.0") := fun hs => h1 hs.symm
      simp [chiaki_rp_version_parse, h1']
    | false =>
      have h8 := h PS4_8 rfl
      have h9 := h PS4_9 rfl
      have h10 := h PS4_10 rfl
      simp only [chiaki_rp_version_string, ne_eq, Option.some.injEq] at h8 h9 h10
      have h8' : ¬(s = "8.0") := fun hs => h8 hs.symm
      have h9' : ¬(s = "9.0") := fun hs => h9 hs.symm
      have h10' : ¬(s = "10.0") := fun hs => h10 hs.symm
      simp [chiaki_rp_version_parse, h8', h9', h10']

/-- Witness for C5: round-trip at `PS4_8` and unknown-string fallback at
`"7.0"`. -/
theorem rp_version_parse_inverse_witness :
    chiaki_rp_version_parse "8.0" (chiaki_target_is_ps5 PS4_8) = PS4_8
    ∧ chiaki_rp_version_parse "7.0" false
        = (if false then PS5_UNKNOWN else PS4_UNKNOWN) :=
  ⟨rp_version_parse_inverse.1 PS4_8 "8.0" rfl,
    rp_version_parse_inverse.2 false "7.0" (by decide)⟩

/-- Bridge: when the connect loop finds a socket, our target has a version
string, the send succeeds and a response is received and parsed,
`session_thread_request_session` reduces to the outcome classification. -/
theorem request_session_eq_classify (s : SessionState) (env : RequestEnv)
    (out : Bool) (resp : ChiakiHttpResponse) (ver : String)
    (hconn : (session_request_connect env.candidates s.quit_reason).connected = true)
    (hver : chiaki_rp_version_string s.target = some ver)
    (hsend : env.send_ok = true)
    (hrecv : env.recv = RecvOutcome.response resp) :
    session_thread_request_session s env out
      = request_outcome_classify
          { s with quit_reason :=
              (session_request_connect env.candidates s.quit_reason).quit_reason }
          out ver resp env.base64_decode := by
  unfold session_thread_request_session
  simp only [hconn, hsend, hrecv, Bool.not_true, Bool.false_eq_true, if_false]
  rw [show ({ s with quit_reason :=
      (session_request_connect env.candidates s.quit_reason).quit_reason } : SessionState).target
    = s.target from rfl, hver]

/-- `success` of a parsed session response holds iff the status was 200 and a
nonce header was present. -/
theorem parse_session_response_success_iff (resp : ChiakiHttpResponse) :
    (parse_session_response resp).success = true
      ↔ (resp.code = 200 ∧ ∃ v, (parse_session_response resp).nonce = some v) := by
  show (if resp.code = 200 then _ else false) = true ↔ _
  by_cases h : resp.code = 200 <;>
    simp [h, parse_session_response, Option.isSome_iff_exists]

/-- The application-reason switch never returns `SUCCESS`. -/
theorem classify_app_reason_ne_success (s : SessionState) (ec : Nat) :
    (classify_app_reason s ec).2 ≠ SUCCESS := by
  unfold classify_app_reason
  split
  · simp
  · split
    · simp
    · split
      · simp
      · simp

/-- Branch equation: 200 + nonce present + decode yields 16 bytes. -/
theorem classify_nonce_ok (sess : SessionState) (out : Bool) (ver : String)
    (resp : ChiakiHttpResponse) (dec : String → Option (List Nat))
    (v : String) (bytes : List Nat)
    (hsucc : (parse_session_response resp).success = true)
    (hv : (parse_session_response resp).nonce = some v)
    (hdec : dec v = some bytes)
    (hlen : bytes.length = CHIAKI_RPCRYPT_KEY_SIZE) :
    request_outcome_classify sess out ver resp dec
      = { st := { sess with nonce := bytes }, err := SUCCESS,
          server_target := none, hit_canceled := false } := by
  simp [request_outcome_classify, hsucc, hv, hdec, hlen]

/-- Branch equation: nonce present but the base64 decode fails. -/
theorem classify_nonce_decode_fail (sess : SessionState) (out : Bool) (ver : String)
    (resp : ChiakiHttpResponse) (dec : String → Option (List Nat)) (v : String)
    (hsucc : (parse_session_response resp).success = true)
    (hv : (parse_session_response resp).nonce = some v)
    (hdec : dec v = none) :
    request_outcome_classify sess out ver resp dec
      = { st := { sess with quit_reason := SESSION_REQUEST_UNKNOWN }, err := UNKNOWN,
          server_target := none, hit_canceled := false } := by
  simp [request_outcome_classify, hsucc, hv, hdec]

/-- Branch equation: nonce present but the decoded length is not 16. -/
theorem classify_nonce_bad_length (sess : SessionState) (out : Bool) (ver : String)
    (resp : ChiakiHttpResponse) (dec : String → Option (List Nat))
    (v : String) (bytes : List Nat)
    (hsucc : (parse_session_response resp).success = true)
    (hv : (parse_session_response resp).nonce = some v)
    (hdec : dec v = some bytes)
    (hlen : bytes.length ≠ CHIAKI_RPCRYPT_KEY_SIZE) :
    request_outcome_classify sess out ver resp dec
      = { st := { sess with quit_reason := SESSION_REQUEST_UNKNOWN }, err := UNKNOWN,
          server_target := none, hit_canceled := false } := by
  simp [request_outcome_classify, hsucc, hv, hdec, hlen]

/-- An unsuccessful response never classifies to `SUCCESS`. -/
theorem classify_fail_ne_success (sess : SessionState) (out : Bool) (ver : String)
    (resp : ChiakiHttpResponse) (dec : String → Option (List Nat))
    (hsucc : (parse_session_response resp).success = false) :
    (request_outcome_classify sess out ver resp dec).err ≠ SUCCESS := by
  simp only [request_outcome_classify, hsucc, Bool.false_eq_true, if_false]
  cases hrv : (parse_session_response resp).rp_version with
  | none => exact classify_app_reason_ne_success _ _
  | some sv =>
    simp only []
    split
    · simp
    · exact classify_app_reason_ne_success _ _

/-- C4: `session_thread_request_session` (with the connect, send and recv all
succeeding) returns `SUCCESS` iff the response has status 200, an `RP-Nonce`
header is present, and its value base64-decodes to exactly
`CHIAKI_RPCRYPT_KEY_SIZE = 16` bytes; those bytes are then stored in the
session's nonce buffer; and when a nonce header is present on a 200 response
but the decode fails or yields a different length, the attempt fails with
quit reason `SESSION_REQUEST_UNKNOWN`. -/
theorem request_session_success_iff_nonce (s : SessionState) (env : RequestEnv)
    (out : Bool) (resp : ChiakiHttpResponse) (ver : String)
    (hconn : (session_request_connect env.candidates s.quit_reason).connected = true)
    (hver : chiaki_rp_version_string s.target = some ver)
    (hsend : env.send_ok = true)
    (hrecv : env.recv = RecvOutcome.response resp) :
    ((session_thread_request_session s env out).err = SUCCESS
      ↔ resp.code = 200 ∧ ∃ v bytes, (parse_session_response resp).nonce = some v
          ∧ env.base64_decode v = some bytes ∧ bytes.length = 16)
    ∧ (∀ v bytes, (parse_session_response resp).nonce = some v →
        env.base64_decode v = some bytes → bytes.length = 16 → resp.code = 200 →
        (session_thread_request_session s env out).st.nonce = bytes)
    ∧ (resp.code = 200 → ∀ v, (parse_session_response resp).nonce = some v →
        (∀ bytes, env.base64_decode v = some bytes → bytes.length ≠ 16) →
        (session_thread_request_session s env out).err ≠ SUCCESS
        ∧ (session_thread_request_session s env out).st.quit_reason
            = SESSION_REQUEST_UNKNOWN) := by
  rw [request_session_eq_classify s env out resp ver hconn hver hsend hrecv]
  by_cases hsucc : (parse_session_response resp).success = true
  · obtain ⟨hcode, v, hv⟩ := (parse_session_response_success_iff resp).mp hsucc
    cases hdec : env.base64_decode v with
    | none =>
      rw [classify_nonce_decode_fail _ out ver resp _ v hsucc hv hdec]
      refine ⟨?_, ?_, ?_⟩
      · constructor
        · intro h; exact absurd h (by simp)
        · rintro ⟨_, v', bytes, hv', hd', _⟩
          rw [hv] at hv'; cases hv'
          rw [hdec] at hd'; cases hd'
      · intro v' bytes hv' hd' _ _
        rw [hv] at hv'; cases hv'
        rw [hdec] at hd'; cases hd'
      · intro _ v' hv' _
        exact ⟨by simp, rfl⟩
    | some bytes =>
      by_cases hlen : bytes.length = CHIAKI_RPCRYPT_KEY_SIZE
      · rw [classify_nonce_ok _ out ver resp _ v bytes hsucc hv hdec hlen]
        refine ⟨?_, ?_, ?_⟩
        · constructor
          · intro _
            exact ⟨hcode, v, bytes, hv, hdec,
              by simpa [CHIAKI_RPCRYPT_KEY_SIZE] using hlen⟩
          · intro _; rfl
        · intro v' bytes' hv' hd' _ _
          rw [hv] at hv'; cases hv'
          rw [hdec] at hd'; cases hd'
          rfl
        · intro _ v' hv' hbad
          rw [hv] at hv'; cases hv'
          exact absurd (by simpa [CHIAKI_RPCRYPT_KEY_SIZE] using hlen) (hbad bytes hdec)
      · rw [classify_nonce_bad_length _ out ver resp _ v bytes hsucc hv hdec hlen]
        refine ⟨?_, ?_, ?_⟩
        · constructor
          · intro h; exact absurd h (by simp)
          · rintro ⟨_, v', bytes', hv', hd', hlen'⟩
            rw [hv] at hv'; cases hv'
            rw [hdec] at hd'; cases hd'
            exact absurd (by simpa [CHIAKI_RPCRYPT_KEY_SIZE] using hlen') hlen
        · intro v' bytes' hv' hd' hlen' _
          rw [hv] at hv'; cases hv'
          rw [hdec] at hd'; cases hd'
          exact absurd (by simpa [CHIAKI_RPCRYPT_KEY_SIZE] using hlen') hlen
        · intro _ v' hv' _
          exact ⟨by simp, rfl⟩
  · have hs : (parse_session_response resp).success = false := by
      simpa using hsucc
    have hne := classify_fail_ne_success
      ({ s with quit_reason :=
          (session_request_connect env.candidates s.quit_reason).quit_reason })
      out ver resp env.base64_decode hs
    have hnon : ¬(resp.code = 200 ∧ ∃ v, (parse_session_response resp).nonce = some v) :=
      fun h => hsucc ((parse_session_response_success_iff resp).mpr h)
    refine ⟨?_, ?_, ?_⟩
    · constructor
      · intro h; exact absurd h hne
      · rintro ⟨hcode, v, bytes, hv, _, _⟩
        exact absurd ⟨hcode, v, hv⟩ hnon
    · intro v bytes hv _ _ hcode
      exact absurd ⟨hcode, v, hv⟩ hnon
    · intro hcode v hv _
      exact absurd ⟨hcode, v, hv⟩ hnon

/-- Branch equation: unsuccessful response taking the version-renegotiation
branch. -/
theorem classify_renegotiate_eq (sess : SessionState) (out : Bool) (ver : String)
    (resp : ChiakiHttpResponse) (dec : String → Option (List Nat)) (sv : String)
    (hsucc : (parse_session_response resp).success = false)
    (hrv : (parse_session_response resp).rp_version = some sv)
    (hcond : ((parse_session_response resp).error_code
          = CHIAKI_RP_APPLICATION_REASON_RP_VERSION
        ∨ (parse_session_response resp).error_code
          = CHIAKI_RP_APPLICATION_REASON_UNKNOWN)
      ∧ out = true ∧ sv ≠ ver) :
    request_outcome_classify sess out ver resp dec
      = { st := (renegotiate_version sess sv).1, err := VERSION_MISMATCH,
          server_target := (renegotiate_version sess sv).2, hit_canceled := false } := by
  simp only [request_outcome_classify, hsucc, Bool.false_eq_true, if_false, hrv]
  rw [if_pos hcond]

/-- Branch equation: unsuccessful response taking the application-reason
switch (the renegotiation branch does not apply). -/
theorem classify_reason_eq (sess : SessionState) (out : Bool) (ver : String)
    (resp : ChiakiHttpResponse) (dec : String → Option (List Nat))
    (hsucc : (parse_session_response resp).success = false)
    (hnot : ∀ sv, (parse_session_response resp).rp_version = some sv →
      ¬ (((parse_session_response resp).error_code
            = CHIAKI_RP_APPLICATION_REASON_RP_VERSION
          ∨ (parse_session_response resp).error_code
            = CHIAKI_RP_APPLICATION_REASON_UNKNOWN)
        ∧ out = true ∧ sv ≠ ver)) :
    request_outcome_classify sess out ver resp dec
      = { st := (classify_app_reason sess (parse_session_response resp).error_code).1
          err := (classify_app_reason sess (parse_session_response resp).error_code).2
          server_target := none, hit_canceled := false } := by
  simp only [request_outcome_classify, hsucc, Bool.false_eq_true, if_false]
  cases hrv : (parse_session_response resp).rp_version with
  | none => rfl
  | some sv =>
    simp only []
    rw [if_neg (hnot sv hrv)]

/-- A non-200 response is never `success`. -/
theorem parse_session_response_not_success (resp : ChiakiHttpResponse)
    (hcode : resp.code ≠ 200) :
    (parse_session_response resp).success = false := by
  rcases h : (parse_session_response resp).success with _ | _
  · rfl
  · obtain ⟨hc, _⟩ := (parse_session_response_success_iff resp).mp h
    exact absurd hc hcode

/-- C6: on a non-200 response whose application reason is `RP_VERSION` (0x80)
or `UNKNOWN` (0x100), with a `target_out` slot supplied and a server
`RP-Version` differing from ours, `session_thread_request_session` parses the
server version into `target_out`; an unknown parse with server string
`"5.0"` is normalized to `PS4_9`; an unknown parse otherwise sets quit reason
`SESSION_REQUEST_RP_VERSION_MISMATCH`; in all these cases the return value is
`VERSION_MISMATCH`. -/
theorem request_session_version_renegotiation (s : SessionState) (env : RequestEnv)
    (resp : ChiakiHttpResponse) (ver sv : String)
    (hconn : (session_request_connect env.candidates s.quit_reason).connected = true)
    (hver : chiaki_rp_version_string s.target = some ver)
    (hsend : env.send_ok = true)
    (hrecv : env.recv = RecvOutcome.response resp)
    (hcode : resp.code ≠ 200)
    (hec : (parse_session_response resp).error_code
        = CHIAKI_RP_APPLICATION_REASON_RP_VERSION
      ∨ (parse_session_response resp).error_code
        = CHIAKI_RP_APPLICATION_REASON_UNKNOWN)
    (hrv : (parse_session_response resp).rp_version = some sv)
    (hdiff : sv ≠ ver) :
    (session_thread_request_session s env true).err = VERSION_MISMATCH
    ∧ (chiaki_target_is_unknown (chiaki_rp_version_parse sv s.ps5) = false →
        (session_thread_request_session s env true).server_target
          = some (chiaki_rp_version_parse sv s.ps5))
    ∧ (chiaki_target_is_unknown (chiaki_rp_version_parse sv s.ps5) = true →
        sv = "5.0" →
        (session_thread_request_session s env true).server_target = some PS4_9)
    ∧ (chiaki_target_is_unknown (chiaki_rp_version_parse sv s.ps5) = true →
        sv ≠ "5.0" →
        (session_thread_request_session s env true).st.quit_reason
            = SESSION_REQUEST_RP_VERSION_MISMATCH
        ∧ (session_thread_request_session s env true).server_target
            = some (chiaki_rp_version_parse sv s.ps5)) := by
  rw [request_session_eq_classify s env true resp ver hconn hver hsend hrecv]
  have hsucc := parse_session_response_not_success resp hcode
  rw [classify_renegotiate_eq _ true ver resp _ sv hsucc hrv ⟨hec, rfl, hdiff⟩]
  refine ⟨rfl, ?_, ?_, ?_⟩
  · intro hk
    simp [renegotiate_version, hk]
  · intro hk h50
    subst h50
    simp [renegotiate_version, hk]
  · intro hk h50
    constructor
    · simp [renegotiate_version, hk, h50]
    · simp [renegotiate_version, hk, h50]

/-- Witness for C6: a PS4_10 session receiving HTTP 403 with
`RP-Application-Reason: 80` and `RP-Version: 9.0` gets `VERSION_MISMATCH`
with `target_out = PS4_9` (spec scenario 2). -/
theorem request_session_version_renegotiation_witness :
    (session_thread_request_session (chiaki_session_init false true)
      { candidates := [CandidateOutcome.connect_ok], send_ok := true
        recv := RecvOutcome.response
          { code := 403
            headers := [("RP-Application-Reason", "80"), ("RP-Version", "9.0")] }
        base64_decode := fun _ => none } true).err = VERSION_MISMATCH :=
  (request_session_version_renegotiation (chiaki_session_init false true) _ _ "10.0" "9.0"
    (by decide) rfl rfl rfl (by decide) (by decide) (by decide) (by decide)).1

/-- C7: on a non-200 response where the renegotiation branch does not apply,
the application reason maps to the quit reason: `IN_USE` to
`SESSION_REQUEST_RP_IN_USE`, `CRASH` to `SESSION_REQUEST_RP_CRASH`,
`RP_VERSION` to `SESSION_REQUEST_RP_VERSION_MISMATCH` together with a
`VERSION_MISMATCH` return, and anything else to `SESSION_REQUEST_UNKNOWN`. -/
theorem request_session_reason_mapping (s : SessionState) (env : RequestEnv)
    (out : Bool) (resp : ChiakiHttpResponse) (ver : String)
    (hconn : (session_request_connect env.candidates s.quit_reason).connected = true)
    (hver : chiaki_rp_version_string s.target = some ver)
    (hsend : env.send_ok = true)
    (hrecv : env.recv = RecvOutcome.response resp)
    (hcode : resp.code ≠ 200)
    (hnot : ∀ sv, (parse_session_response resp).rp_version = some sv →
      ¬ (((parse_session_response resp).error_code
            = CHIAKI_RP_APPLICATION_REASON_RP_VERSION
          ∨ (parse_session_response resp).error_code
            = CHIAKI_RP_APPLICATION_REASON_UNKNOWN)
        ∧ out = true ∧ sv ≠ ver)) :
    ((parse_session_response resp).error_code = CHIAKI_RP_APPLICATION_REASON_IN_USE →
      (session_thread_request_session s env out).st.quit_reason
        = SESSION_REQUEST_RP_IN_USE)
    ∧ ((parse_session_response resp).error_code = CHIAKI_RP_APPLICATION_REASON_CRASH →
      (session_thread_request_session s env out).st.quit_reason
        = SESSION_REQUEST_RP_CRASH)
    ∧ ((parse_session_response resp).error_code
          = CHIAKI_RP_APPLICATION_REASON_RP_VERSION →
      (session_thread_request_session s env out).st.quit_reason
          = SESSION_REQUEST_RP_VERSION_MISMATCH
      ∧ (session_thread_request_session s env out).err = VERSION_MISMATCH)
    ∧ ((parse_session_response resp).error_code ≠ CHIAKI_RP_APPLICATION_REASON_IN_USE →
      (parse_session_response resp).error_code ≠ CHIAKI_RP_APPLICATION_REASON_CRASH →
      (parse_session_response resp).error_code
          ≠ CHIAKI_RP_APPLICATION_REASON_RP_VERSION →
      (session_thread_request_session s env out).st.quit_reason
        = SESSION_REQUEST_UNKNOWN) := by
  rw [request_session_eq_classify s env out resp ver hconn hver hsend hrecv]
  have hsucc := parse_session_response_not_success resp hcode
  rw [classify_reason_eq _ out ver resp _ hsucc hnot]
  refine ⟨?_, ?_, ?_, ?_⟩
  · intro h
    simp [classify_app_reason, h, CHIAKI_RP_APPLICATION_REASON_IN_USE]
  · intro h
    simp [classify_app_reason, h, CHIAKI_RP_APPLICATION_REASON_IN_USE,
      CHIAKI_RP_APPLICATION_REASON_CRASH]
  · intro h
    constructor <;>
      simp [classify_app_reason, h, CHIAKI_RP_APPLICATION_REASON_IN_USE,
        CHIAKI_RP_APPLICATION_REASON_CRASH, CHIAKI_RP_APPLICATION_REASON_RP_VERSION]
  · intro h1 h2 h3
    simp [classify_app_reason, h1, h2, h3]

/-- Witness for C7: a non-200 response with `RP-Application-Reason: 0x87`
(`IN_USE`) and no renegotiation yields quit reason
`SESSION_REQUEST_RP_IN_USE` (spec scenario 4). -/
theorem request_session_reason_mapping_witness :
    (session_thread_request_session (chiaki_session_init false true)
      { candidates := [CandidateOutcome.connect_ok], send_ok := true
        recv := RecvOutcome.response
          { code := 503, headers := [("RP-Application-Reason", "0x87")] }
        base64_decode := fun _ => none } true).st.quit_reason
      = SESSION_REQUEST_RP_IN_USE :=
  (request_session_reason_mapping (chiaki_session_init false true) _ true _ "10.0"
    (by decide) rfl rfl rfl (by decide) (by decide)).1 (by decide)

/-- Witness for C4: a 200 response whose `RP-Nonce` decodes to 16 zero bytes
makes `session_thread_request_session` succeed (spec scenario 1 shape). -/
theorem request_session_success_iff_nonce_witness :
    (session_thread_request_session (chiaki_session_init true true)
      { candidates := [CandidateOutcome.connect_ok], send_ok := true
        recv := RecvOutcome.response
          { code := 200, headers := [("RP-Nonce", "AAAAAAAAAAAAAAAAAAAAAA==")] }
        base64_decode := fun v =>
          if v = "AAAAAAAAAAAAAAAAAAAAAA==" then some (List.replicate 16 0) else none }
      true).err = SUCCESS :=
  (request_session_success_iff_nonce (chiaki_session_init true true) _ true _ "1.0"
    (by decide) rfl rfl rfl).1.mpr
    ⟨rfl, "AAAAAAAAAAAAAAAAAAAAAA==", List.replicate 16 0, by decide, by decide, by decide⟩

theorem quit_event_count_append (a b : List ChiakiEvent) :
    quit_event_count (a ++ b) = quit_event_count a + quit_event_count b := by
  simp [quit_event_count, List.filter_append]

theorem send_event_no_quit (s : SessionState) (b : Bool) :
    quit_event_count (chiaki_session_send_event s (.login_pin_request b)) = 0 := by
  unfold chiaki_session_send_event
  split <;> simp [quit_event_count, isQuitEvent]

theorem send_event_quit_count (s : SessionState) (q : ChiakiQuitReason)
    (str : Option String) (h : s.has_cb = true) :
    quit_event_count (chiaki_session_send_event s (.quit q str)) = 1 := by
  simp [chiaki_session_send_event, h, quit_event_count, isQuitEvent]

theorem classify_app_reason_has_cb (s : SessionState) (ec : Nat) :
    (classify_app_reason s ec).1.has_cb = s.has_cb := by
  unfold classify_app_reason
  repeat' split
  all_goals rfl

theorem renegotiate_version_has_cb (s : SessionState) (sv : String) :
    (renegotiate_version s sv).1.has_cb = s.has_cb := by
  simp only [renegotiate_version]
  repeat' split
  all_goals rfl

theorem request_outcome_classify_has_cb (sess : SessionState) (out : Bool)
    (ver : String) (resp : ChiakiHttpResponse) (dec : String → Option (List Nat)) :
    (request_outcome_classify sess out ver resp dec).st.has_cb = sess.has_cb := by
  simp only [request_outcome_classify]
  repeat' split
  all_goals simp [classify_app_reason_has_cb, renegotiate_version_has_cb]

theorem request_session_has_cb (s : SessionState) (e : RequestEnv) (b : Bool) :
    (session_thread_request_session s e b).st.has_cb = s.has_cb := by
  simp only [session_thread_request_session]
  repeat' split
  all_goals simp [request_outcome_classify_has_cb]

theorem request_phase_final_has_cb (st : SessionState) (err : ChiakiErrorCode)
    (atts : List AttemptLog) :
    (request_phase_final st err atts).st.has_cb = st.has_cb := by
  unfold request_phase_final
  split
  all_goals rfl

theorem request_phase_second_has_cb (env : ThreadEnv) (st : SessionState)
    (err : ChiakiErrorCode) (sv : ChiakiTarget) (atts : List AttemptLog) :
    (request_phase_second env st err sv atts).st.has_cb = st.has_cb := by
  simp only [request_phase_second]
  repeat' split
  all_goals simp [request_phase_final_has_cb, request_session_has_cb]

theorem request_phase_has_cb (env : ThreadEnv) (st : SessionState) :
    (request_phase env st).st.has_cb = st.has_cb := by
  simp only [request_phase]
  repeat' split
  all_goals simp [request_phase_second_has_cb, request_session_has_cb]

theorem ctrl_failed_quit_has_cb (st : SessionState) :
    (ctrl_failed_quit st).has_cb = st.has_cb := by
  unfold ctrl_failed_quit
  split
  all_goals rfl

theorem classify_stream_result_has_cb (st : SessionState) (err : ChiakiErrorCode)
    (r : String) :
    (classify_stream_result st err r).has_cb = st.has_cb := by
  unfold classify_stream_result
  repeat' split
  all_goals rfl

theorem pin_loop_has_cb (rounds : List PinRound) (st : SessionState) (b : Bool) :
    (session_pin_loop st rounds b).2.1.has_cb = st.has_cb := by
  induction rounds generalizing st b with
  | nil => rfl
  | cons r rest ih =>
    simp only [session_pin_loop]
    repeat' split
    all_goals simp [ih, session_consume_login_pin]

theorem pin_loop_no_quit_events (rounds : List PinRound) (st : SessionState)
    (b : Bool) :
    quit_event_count (session_pin_loop st rounds b).2.2 = 0 := by
  induction rounds generalizing st b with
  | nil => simp [session_pin_loop, quit_event_count]
  | cons r rest ih =>
    simp only [session_pin_loop]
    repeat' split
    all_goals simp [quit_event_count_append, ih, send_event_no_quit]

/-- If the ghost log says the stream connection ran, the final state is the
stream classification of some intermediate state. -/
theorem after_ctrl_stream_shape (env : ThreadEnv) (st : SessionState)
    (atts : List AttemptLog) (evs : List ChiakiEvent)
    (h : (session_after_ctrl env st atts evs).log.stream_ran = true) :
    ∃ st0, (session_after_ctrl env st atts evs).st
      = classify_stream_result st0 env.stream_err env.remote_disconnect_reason := by
  revert h
  simp only [session_after_ctrl]
  repeat' split
  all_goals intro h
  all_goals
    first
      | exact ⟨_, rfl⟩
      | exact absurd h (by simp [session_quit_finish])

/-- Runner version of `after_ctrl_stream_shape`. -/
theorem thread_stream_shape (env : ThreadEnv) (st : SessionState)
    (h : (session_thread_func env st).log.stream_ran = true) :
    ∃ st0, (session_thread_func env st).st
      = classify_stream_result st0 env.stream_err env.remote_disconnect_reason := by
  revert h
  simp only [session_thread_func]
  repeat' split
  all_goals intro h
  all_goals
    first
      | exact after_ctrl_stream_shape env _ _ _ h
      | exact absurd h (by simp [session_quit_finish])

/-- C8: when the stream channel's run returns, the session classifies its
result: `DISCONNECTED` sets quit reason
`STREAM_CONNECTION_REMOTE_DISCONNECTED` and copies the channel's
`remote_disconnect_reason` into `quit_reason_str`; `SUCCESS` or `CANCELED`
sets `STOPPED`; every other result sets `STREAM_CONNECTION_UNKNOWN`. -/
theorem stream_result_classification (env : ThreadEnv) (st : SessionState)
    (h : (session_thread_func env st).log.stream_ran = true) :
    (env.stream_err = DISCONNECTED →
      (session_thread_func env st).st.quit_reason
          = STREAM_CONNECTION_REMOTE_DISCONNECTED
      ∧ (session_thread_func env st).st.quit_reason_str
          = some env.remote_disconnect_reason)
    ∧ (env.stream_err = SUCCESS ∨ env.stream_err = CANCELED →
      (session_thread_func env st).st.quit_reason = STOPPED)
    ∧ (env.stream_err ≠ DISCONNECTED → env.stream_err ≠ SUCCESS →
      env.stream_err ≠ CANCELED →
      (session_thread_func env st).st.quit_reason = STREAM_CONNECTION_UNKNOWN) := by
  obtain ⟨st0, heq⟩ := thread_stream_shape env st h
  rw [heq]
  unfold classify_stream_result
  refine ⟨?_, ?_, ?_⟩
  · intro hd
    simp [hd]
  · rintro (hs | hc)
    · simp [hs]
    · simp [hc]
  · intro hd hs hc
    simp [hd, hs, hc]

/-- The single quit label emits exactly one `QUIT` when a callback is
registered and no earlier `QUIT` was emitted. -/
theorem quit_finish_count (st' : SessionState) (evs : List ChiakiEvent)
    (log : ThreadLog) (hcb : st'.has_cb = true)
    (hevs : quit_event_count evs = 0) :
    quit_event_count (session_quit_finish st' evs log).events = 1 := by
  simp [session_quit_finish, quit_event_count_append, hevs,
    send_event_quit_count _ _ _ hcb]

/-- The thread tail emits exactly one `QUIT` on each of its exits. -/
theorem after_ctrl_one_quit (env : ThreadEnv) (st : SessionState)
    (atts : List AttemptLog) (evs : List ChiakiEvent)
    (hcb : st.has_cb = true) (hevs : quit_event_count evs = 0) :
    quit_event_count (session_after_ctrl env st atts evs).events = 1 := by
  simp only [session_after_ctrl]
  repeat' split
  all_goals refine quit_finish_count _ _ _ ?_ hevs
  all_goals simp [classify_stream_result_has_cb, hcb]

/-- C2: every completed run of the session thread delivers exactly one `QUIT`
event to a registered callback, on every exit path (early stop, request
failure, ctrl failure, PIN-loop exits, probe/crypto failures, stream
completion). -/
theorem exactly_one_quit_event (env : ThreadEnv) (st : SessionState)
    (h : st.has_cb = true) :
    quit_event_count (session_thread_func env st).events = 1 := by
  simp only [session_thread_func]
  repeat' split
  all_goals
    first
      | exact after_ctrl_one_quit env _ _ _
          (by simp [pin_loop_has_cb, request_phase_has_cb, h])
          (pin_loop_no_quit_events _ _ _)
      | exact quit_finish_count _ _ _
          (by simp [ctrl_failed_quit_has_cb, pin_loop_has_cb, request_phase_has_cb, h])
          (by first
                | exact pin_loop_no_quit_events _ _ _
                | simp [quit_event_count])

/-- Witness for C2: one `QUIT` on a concrete clean run. -/
theorem exactly_one_quit_event_witness :
    quit_event_count
      (session_thread_func base_thread_env (chiaki_session_init true true)).events = 1 :=
  exactly_one_quit_event base_thread_env (chiaki_session_init true true) rfl

/-- A canceled connect loop reports `STOPPED` and no socket. -/
theorem connect_canceled_stopped (cands : List CandidateOutcome)
    (qr : ChiakiQuitReason)
    (h : (session_request_connect cands qr).canceled = true) :
    (session_request_connect cands qr).quit_reason = STOPPED
    ∧ (session_request_connect cands qr).connected = false := by
  induction cands generalizing qr with
  | nil => exact absurd h (by simp [session_request_connect])
  | cons c rest ih =>
    cases c
    case connect_canceled => exact ⟨rfl, rfl⟩
    case connect_ok => exact absurd h (by simp [session_request_connect])
    all_goals exact ih _ h

/-- The outcome classification never reports a canceled operation. -/
theorem request_outcome_classify_not_canceled (sess : SessionState) (out : Bool)
    (ver : String) (resp : ChiakiHttpResponse)
    (dec : String → Option (List Nat)) :
    (request_outcome_classify sess out ver resp dec).hit_canceled = false := by
  simp only [request_outcome_classify]
  repeat' split
  all_goals rfl

/-- When a cancellable operation inside `session_thread_request_session`
returned `CANCELED`, the call returns `NETWORK` with quit reason `STOPPED`. -/
theorem request_canceled_stopped (s : SessionState) (e : RequestEnv) (b : Bool)
    (h : (session_thread_request_session s e b).hit_canceled = true) :
    (session_thread_request_session s e b).err = NETWORK
    ∧ (session_thread_request_session s e b).st.quit_reason = STOPPED := by
  revert h
  simp only [session_thread_request_session]
  repeat' split
  all_goals intro h
  all_goals
    first
      | exact ⟨rfl, rfl⟩
      | exact ⟨rfl, (connect_canceled_stopped e.candidates s.quit_reason h).1⟩
      | exact absurd (connect_canceled_stopped e.candidates s.quit_reason h).1
          (by simp_all)
      | exact absurd h (by simp [request_outcome_classify_not_canceled])

/-- The attempt logs of the request phase. -/
theorem request_phase_canceled_stopped (env : ThreadEnv) (st : SessionState)
    (h : ∃ a ∈ (request_phase env st).attempts, a.hit_canceled = true) :
    (request_phase env st).ok = false
    ∧ (request_phase env st).st.quit_reason = STOPPED := by
  revert h
  simp only [request_phase, request_phase_second, request_phase_final]
  repeat' split
  all_goals intro h
  all_goals obtain ⟨a, ha, hcanc⟩ := h
  all_goals
    simp only [List.cons_append, List.nil_append, List.mem_cons,
      List.not_mem_nil, or_false] at ha
  all_goals
    first
      | (rcases ha with rfl | rfl | rfl)
      | (rcases ha with rfl | rfl)
      | (rcases ha with rfl)
  all_goals
    first
      | exact ⟨rfl, (request_canceled_stopped _ _ _ hcanc).2⟩
      | exact absurd (request_canceled_stopped _ _ _ hcanc).1 (by simp_all)

/-- The ghost log of the thread tail carries the attempts it was given. -/
theorem after_ctrl_log_attempts (env : ThreadEnv) (st : SessionState)
    (atts : List AttemptLog) (evs : List ChiakiEvent) :
    (session_after_ctrl env st atts evs).log.attempts = atts := by
  simp only [session_after_ctrl]
  repeat' split
  all_goals rfl

/-- If any request attempt of a thread run had a canceled cancellable
operation, the final quit reason is `STOPPED`. -/
theorem thread_attempt_canceled_stopped (env : ThreadEnv) (st : SessionState)
    (h : ∃ a ∈ (session_thread_func env st).log.attempts, a.hit_canceled = true) :
    (session_thread_func env st).st.quit_reason = STOPPED := by
  revert h
  simp only [session_thread_func]
  repeat' split
  all_goals intro h
  all_goals
    simp only [session_quit_finish, after_ctrl_log_attempts, List.not_mem_nil,
      false_and, exists_false, exists_const] at h
  all_goals
    first
      | exact (request_phase_canceled_stopped env st h).2
      | exact absurd (request_phase_canceled_stopped env st h).1 (by assumption)

/-- C1 counterexample: on a clean run in which the Senkusha probe returns
`CANCELED` (session.c:475-476), the thread quits without setting any quit
reason: the single `QUIT` event carries `NONE`, not `STOPPED`. -/
theorem senkusha_canceled_quit_reason_none :
    ({ base_thread_env with senkusha_run_err := CANCELED } : ThreadEnv).senkusha_run_err
        = CANCELED
    ∧ (session_thread_func { base_thread_env with senkusha_run_err := CANCELED }
        (chiaki_session_init true true)).log.senkusha_ran = true
    ∧ (session_thread_func { base_thread_env with senkusha_run_err := CANCELED }
        (chiaki_session_init true true)).events
        = [ChiakiEvent.quit NONE none] := by
  refine ⟨rfl, by decide, by decide⟩

/-- C1 (amended): `CANCELED` from the cancellable connect, the header recv or
the stream-channel run is always converted to the `STOPPED` quit reason
before the `QUIT` event; the Senkusha probe's `CANCELED` is the exception —
it quits with the quit reason left unchanged (see the counterexample). -/
theorem canceled_converts_to_stopped (env : ThreadEnv) (st : SessionState) :
    ((∃ a ∈ (session_thread_func env st).log.attempts, a.hit_canceled = true) →
      (session_thread_func env st).st.quit_reason = STOPPED)
    ∧ ((session_thread_func env st).log.stream_ran = true →
      env.stream_err = CANCELED →
      (session_thread_func env st).st.quit_reason = STOPPED) := by
  refine ⟨thread_attempt_canceled_stopped env st, ?_⟩
  intro h hc
  obtain ⟨st0, heq⟩ := thread_stream_shape env st h
  rw [heq]
  simp [classify_stream_result, hc]

/-- Witness for C1 (amended): a run whose first request connect is canceled
ends with quit reason `STOPPED`. -/
theorem canceled_converts_to_stopped_witness :
    (session_thread_func
        { base_thread_env with
            req1 := { good_request_env with
              candidates := [CandidateOutcome.connect_canceled] } }
        (chiaki_session_init true true)).st.quit_reason = STOPPED :=
  (canceled_converts_to_stopped
      { base_thread_env with
          req1 := { good_request_env with
            candidates := [CandidateOutcome.connect_canceled] } }
      (chiaki_session_init true true)).1 (by decide)

/-- Case characterization of the attempt log of the request phase. -/
theorem request_phase_attempts (env : ThreadEnv) (st : SessionState) :
    (¬((attempt1 env st).err = VERSION_MISMATCH
        ∧ chiaki_target_is_unknown (server_target1 env st) = false) →
      (request_phase env st).attempts
        = [⟨st.target, true, (attempt1 env st).err, (attempt1 env st).hit_canceled⟩])
    ∧ (((attempt1 env st).err = VERSION_MISMATCH
          ∧ chiaki_target_is_unknown (server_target1 env st) = false) →
      ¬((attempt2 env st).err = VERSION_MISMATCH
          ∧ chiaki_target_is_unknown (server_target2 env st) = false) →
      (request_phase env st).attempts
        = [⟨st.target, true, (attempt1 env st).err, (attempt1 env st).hit_canceled⟩,
           ⟨server_target1 env st, true, (attempt2 env st).err,
             (attempt2 env st).hit_canceled⟩])
    ∧ (((attempt1 env st).err = VERSION_MISMATCH
          ∧ chiaki_target_is_unknown (server_target1 env st) = false) →
      ((attempt2 env st).err = VERSION_MISMATCH
          ∧ chiaki_target_is_unknown (server_target2 env st) = false) →
      (request_phase env st).attempts
        = [⟨st.target, true, (attempt1 env st).err, (attempt1 env st).hit_canceled⟩,
           ⟨server_target1 env st, true, (attempt2 env st).err,
             (attempt2 env st).hit_canceled⟩,
           ⟨server_target2 env st, false, (attempt3 env st).err,
             (attempt3 env st).hit_canceled⟩])
    ∧ ((attempt1 env st).err ≠ SUCCESS → (attempt1 env st).err ≠ VERSION_MISMATCH →
      (request_phase env st).ok = false) := by
  refine ⟨?_, ?_, ?_, ?_⟩
  · intro h
    simp only [attempt1, server_target1] at h ⊢
    simp only [request_phase, request_phase_second, request_phase_final]
    rw [if_neg h]
    repeat' split
    all_goals first | rfl | simp_all
  · intro h1 h2
    simp only [attempt1, server_target1] at h1 ⊢
    simp only [attempt2, server_target2, attempt1, server_target1] at h2 ⊢
    simp only [request_phase, request_phase_second, request_phase_final]
    rw [if_pos h1, if_neg h2]
    repeat' split
    all_goals first | rfl | simp_all
  · intro h1 h2
    simp only [attempt1, server_target1] at h1 ⊢
    simp only [attempt2, server_target2, attempt1, server_target1] at h2 ⊢
    simp only [attempt3, attempt2, server_target2, attempt1, server_target1]
    simp only [request_phase, request_phase_second, request_phase_final]
    rw [if_pos h1, if_pos h2]
    repeat' split
    all_goals simp
  · intro hs hv
    simp only [attempt1] at hs hv
    simp only [request_phase, request_phase_second, request_phase_final]
    rw [if_neg (fun hc => hv hc.1), if_pos hs]

/-- On a non-stopped start, the thread's logged attempts are exactly those of
the request phase. -/
theorem thread_log_attempts (env : ThreadEnv) (st : SessionState)
    (h : env.stop_at_start = false) :
    (session_thread_func env st).log.attempts = (request_phase env st).attempts := by
  simp only [session_thread_func, h, Bool.false_eq_true, if_false]
  repeat' split
  all_goals simp [session_quit_finish, after_ctrl_log_attempts]

/-- When the request phase quits, the ctrl channel is never started. -/
theorem thread_ctrl_not_started_of_quit (env : ThreadEnv) (st : SessionState)
    (h : env.stop_at_start = false) (hq : (request_phase env st).ok = false) :
    (session_thread_func env st).log.ctrl_started = false := by
  simp only [session_thread_func, h, Bool.false_eq_true, if_false, hq, if_true]
  rfl

/-- C3: the session thread makes at most three request attempts, linearly.
Attempt 1 always runs with a `target_out` slot; a second attempt runs iff
attempt 1 returned `VERSION_MISMATCH` with a non-unknown `server_target`,
and it uses the server's target (still with a `target_out` slot); the thread
quits — never starting ctrl — when attempt 1 returned any other error; a
third attempt runs iff attempt 2 also returned `VERSION_MISMATCH` leaving a
non-unknown `server_target`, and it uses the updated target with
`target_out = NULL`. -/
theorem request_retry_ladder (env : ThreadEnv) (st : SessionState)
    (henv : env.stop_at_start = false) :
    ((session_thread_func env st).log.attempts.get? 0
        = some ⟨st.target, true, (attempt1 env st).err, (attempt1 env st).hit_canceled⟩)
    ∧ (2 ≤ (session_thread_func env st).log.attempts.length
        ↔ ((attempt1 env st).err = VERSION_MISMATCH
            ∧ chiaki_target_is_unknown (server_target1 env st) = false))
    ∧ (2 ≤ (session_thread_func env st).log.attempts.length →
        (session_thread_func env st).log.attempts.get? 1
          = some ⟨server_target1 env st, true, (attempt2 env st).err,
              (attempt2 env st).hit_canceled⟩)
    ∧ ((session_thread_func env st).log.attempts.length = 3
        ↔ (2 ≤ (session_thread_func env st).log.attempts.length
            ∧ (attempt2 env st).err = VERSION_MISMATCH
            ∧ chiaki_target_is_unknown (server_target2 env st) = false))
    ∧ ((session_thread_func env st).log.attempts.length = 3 →
        (session_thread_func env st).log.attempts.get? 2
          = some ⟨server_target2 env st, false, (attempt3 env st).err,
              (attempt3 env st).hit_canceled⟩)
    ∧ ((session_thread_func env st).log.attempts.length ≤ 3)
    ∧ ((attempt1 env st).err ≠ SUCCESS → (attempt1 env st).err ≠ VERSION_MISMATCH →
        (session_thread_func env st).log.attempts.length = 1
        ∧ (session_thread_func env st).log.ctrl_started = false) := by
  rw [thread_log_attempts env st henv]
  by_cases hc1 : (attempt1 env st).err = VERSION_MISMATCH
      ∧ chiaki_target_is_unknown (server_target1 env st) = false
  · by_cases hc2 : (attempt2 env st).err = VERSION_MISMATCH
        ∧ chiaki_target_is_unknown (server_target2 env st) = false
    · rw [(request_phase_attempts env st).2.2.1 hc1 hc2]
      refine ⟨rfl, by simp [hc1], fun _ => rfl, by simp [hc2], fun _ => rfl,
        by simp, fun _ hv => absurd hc1.1 hv⟩
    · rw [(request_phase_attempts env st).2.1 hc1 hc2]
      refine ⟨rfl, by simp [hc1], fun _ => rfl, by simp [hc2], ?_, by simp,
        fun _ hv => absurd hc1.1 hv⟩
      intro h3
      exact absurd h3 (by simp)
  · rw [(request_phase_attempts env st).1 hc1]
    refine ⟨rfl, by simp [hc1], ?_, by simp, ?_, by simp, ?_⟩
    · intro h2
      exact absurd h2 (by simp)
    · intro h3
      exact absurd h3 (by simp)
    · intro hs hv
      exact ⟨rfl, thread_ctrl_not_started_of_quit env st henv
        ((request_phase_attempts env st).2.2.2 hs hv)⟩

/-- Witness for C3: spec scenario 2 — a PS4_10 session whose first attempt
reports `RP-Version: 9.0` (HTTP 403, reason 0x80) retries, so two attempts
are logged. -/
theorem request_retry_ladder_witness :
    2 ≤ (session_thread_func
        { base_thread_env with
            req1 := { good_request_env with
              recv := RecvOutcome.response
                { code := 403
                  headers := [("RP-Application-Reason", "80"), ("RP-Version", "9.0")] } } }
        (chiaki_session_init false true)).log.attempts.length :=
  (request_retry_ladder
      { base_thread_env with
          req1 := { good_request_env with
            recv := RecvOutcome.response
              { code := 403
                headers := [("RP-Application-Reason", "80"), ("RP-Version", "9.0")] } } }
      (chiaki_session_init false true) rfl).2.1.mpr (by decide)

/-- Witness for C8: a clean run whose stream exits with `DISCONNECTED`
carries `STREAM_CONNECTION_REMOTE_DISCONNECTED` and the remote's string. -/
theorem stream_result_classification_witness :
    (session_thread_func
        { base_thread_env with
            stream_err := DISCONNECTED
            remote_disconnect_reason := "Server shutting down" }
        (chiaki_session_init true true)).st.quit_reason
      = STREAM_CONNECTION_REMOTE_DISCONNECTED :=
  ((stream_result_classification
      { base_thread_env with
          stream_err := DISCONNECTED
          remote_disconnect_reason := "Server shutting down" }
      (chiaki_session_init true true) (by decide)).1 rfl).1

end Chiaki
